import Mathlib

/-!
Shallow embedding of the Fluxer gateway client
(src/extensions/fluxer/src/runtime.ts, class FluxerGateway).

The TypeScript class is event-driven and effectful.  We embed it as a pure
state machine: the mutable instance fields become a structure
`FluxerGateway`, and each method becomes a function from the state to a new
state paired with a list of observable `Effect`s (transport dials, close
frames, outbound payloads, scheduled timers, user callbacks, error logs).
Informational console.log lines are not modelled; console.error lines that
the spec treats as observable (exhaustion, identify failure, caught
reconnect errors) appear as `Effect.logMsg`.

Wire sequence numbers are natural numbers.  JavaScript truthiness of
`payload.s` is modelled on `Option Nat`: `none` stands for an absent or
null field, and `some 0` is falsy exactly as the number 0 is in JS.
-/

/-- The readyState values of a ws WebSocket.  `WebSocket.OPEN` is `OPEN`. -/
inductive WsReadyState where
  | CONNECTING
  | OPEN
  | CLOSING
  | CLOSED
deriving DecidableEq, Repr

/-- The `d` field of an outbound heartbeat frame as a JSON value: either the
JSON null marker or a number.  The wire format allows both; which one the
client actually sends is proved below, not assumed. -/
inductive HeartbeatD where
  | null
  | num (n : Nat)
deriving DecidableEq, Repr

/-- Observable effects of the gateway methods, in program order.
`dial` is `new WebSocket(gatewayUrl, ...)`; `schedReconnect d` is
`setTimeout(() => this.reconnect(), d)`; `schedConnect d` is
`setTimeout(() => this.connect().catch(...), d)`; the `cb*` constructors are
the caller-supplied onReady/onMessage/onError/onDisconnect callbacks. -/
inductive Effect where
  | dial
  | closeWs (code : Nat)
  | sendHeartbeat (d : HeartbeatD)
  | sendIdentify (token : String) (intents : Nat)
  | schedReconnect (delayMs : Nat)
  | schedConnect (delayMs : Nat)
  | cbReady
  | cbMessage
  | cbError
  | cbDisconnect
  | logMsg (m : String)
deriving DecidableEq, Repr

/-- The `d` field of an inbound payload, restricted to the members the
client reads: `heartbeat_interval` (Hello) and `session_id` (READY).
An absent member is `none` / the default, matching `undefined`. -/
structure PayloadData where
  heartbeat_interval : Nat := 0
  session_id : Option String := none
deriving DecidableEq, Repr

/-- The wire envelope `{op, d, s, t}`.  `op : Option Nat` because a payload
may lack `op` (the switch then falls through to the default case); `s` and
`t` are present only on dispatch-style payloads. -/
structure Payload where
  op : Option Nat := none
  d : PayloadData := {}
  s : Option Nat := none
  t : Option String := none
deriving DecidableEq, Repr

/-- The mutable instance fields of class FluxerGateway.
`ws = none` is `this.ws === null`; `heartbeatInterval = some i` means the
repeating heartbeat timer is armed with period `i` ms,
`none` means no timer.  `maxReconnectAttempts` and `reconnectDelay` are
instance fields initialized to 5 and 1000 and never written. -/
structure FluxerGateway where
  ws : Option WsReadyState := none
  token : String
  sequence : Nat := 0
  sessionId : Option String := none
  resumeUrl : Option String := none
  reconnectAttempts : Nat := 0
  maxReconnectAttempts : Nat := 5
  reconnectDelay : Nat := 1000
  heartbeatInterval : Option Nat := none
deriving DecidableEq, Repr

/-- The constructor: fresh instance for a token. -/
def FluxerGateway.mk0 (token : String) : FluxerGateway := { token := token }

/-- Method `connect()`: unconditionally constructs a new WebSocket (a dial of the
gateway endpoint) and installs the handlers.  The source has no
already-connected guard; the promise-resolution wrapping of onReady has no
state content beyond the callbacks already modelled. -/
def FluxerGateway.connect (st : FluxerGateway) : FluxerGateway × List Effect :=
  ({ st with ws := some .CONNECTING }, [.dial])

/-- The transport-level open event: the socket readyState becomes OPEN.
The registered handler only logs. -/
def FluxerGateway.wsOpened (st : FluxerGateway) : FluxerGateway :=
  { st with ws := st.ws.map fun _ => .OPEN }

/-- Method `isConnected()`: `this.ws !== null && this.ws.readyState === WebSocket.OPEN`. -/
def FluxerGateway.isConnected (st : FluxerGateway) : Bool :=
  st.ws = some .OPEN

/-- Method `getSessionId()`. -/
def FluxerGateway.getSessionId (st : FluxerGateway) : Option String :=
  st.sessionId

/-- Method `startHeartbeat(intervalMs)`: clears any existing interval timer and
arms a new one with period `intervalMs`. -/
def FluxerGateway.startHeartbeat (st : FluxerGateway) (intervalMs : Nat) :
    FluxerGateway :=
  { st with heartbeatInterval := some intervalMs }

/-- One tick of the armed heartbeat timer: if the socket is open, send
`{op: 1, d: this.sequence}`.  `this.sequence` is a number, so the `d`
field is always `HeartbeatD.num`. -/
def FluxerGateway.heartbeatTick (st : FluxerGateway) : List Effect :=
  if st.ws = some .OPEN then [.sendHeartbeat (.num st.sequence)] else []

/-- Method `sendIdentify()`: refuses (with a logged error) unless the socket is
open; otherwise sends the op-2 identify frame with intents 513. -/
def FluxerGateway.sendIdentify (st : FluxerGateway) : List Effect :=
  if st.ws = some .OPEN then
    [.sendIdentify st.token 513]
  else
    [.logMsg "Cannot identify - WebSocket not open"]

/-- Method `reconnect()`: increments the attempt counter, computes
`delay = reconnectDelay * 2^(attempts - 1)` for the new counter value, and
schedules `connect()` (with its rejection caught and logged) after that
delay. -/
def FluxerGateway.reconnect (st : FluxerGateway) : FluxerGateway × List Effect :=
  let attempts := st.reconnectAttempts + 1
  let delay := st.reconnectDelay * 2 ^ (attempts - 1)
  ({ st with reconnectAttempts := attempts }, [.schedConnect delay])

/-- The body of the timer armed by `reconnect()`:
`this.connect().catch(err => console.error(...))`.  Both outcomes of the
connect promise produce a normal return; a rejection becomes a log line
and is not re-thrown across the timer boundary. -/
def connectCatchHandler (outcome : Except String Unit) : List Effect :=
  match outcome with
  | .ok _ => []
  | .error e => [.logMsg e]

/-- Method `handleDisconnect()`: stops the heartbeat timer, then retries via
`reconnect()` only while `reconnectAttempts < maxReconnectAttempts`;
otherwise it only writes a console.error line. -/
def FluxerGateway.handleDisconnect (st : FluxerGateway) : FluxerGateway × List Effect :=
  let st1 := { st with heartbeatInterval := none }
  if st1.reconnectAttempts < st1.maxReconnectAttempts then
    st1.reconnect
  else
    (st1, [.logMsg "Max reconnect attempts reached"])

/-- The registered close listener: fires the caller's onDisconnect
callback, then runs `handleDisconnect()`.  It runs whenever the socket
closes, whether the server dropped the link or `disconnect()` closed it. -/
def FluxerGateway.onClose (st : FluxerGateway) : FluxerGateway × List Effect :=
  let r := st.handleDisconnect
  (r.fst, .cbDisconnect :: r.snd)

/-- Method `handlePayload(payload)`: first updates `this.sequence` from a truthy
`payload.s`, then dispatches on the opcode exactly as the source switch
does (10 Hello, 11 Heartbeat ACK, 0 Dispatch, 7 Reconnect, 9 Invalid
session, default ignore). -/
def FluxerGateway.handlePayload (st : FluxerGateway) (p : Payload) :
    FluxerGateway × List Effect :=
  let st1 :=
    match p.s with
    | some n => if n = 0 then st else { st with sequence := n }
    | none => st
  if p.op = some 10 then
    let st2 := st1.startHeartbeat p.d.heartbeat_interval
    (st2, st2.sendIdentify)
  else if p.op = some 11 then
    (st1, [])
  else if p.op = some 0 then
    if p.t = some "READY" then
      ({ st1 with sessionId := p.d.session_id }, [.cbReady])
    else if p.t = some "MESSAGE_CREATE" then
      (st1, [.cbMessage])
    else
      (st1, [])
  else if p.op = some 7 then
    st1.reconnect
  else if p.op = some 9 then
    (st1, [.schedReconnect st1.reconnectDelay])
  else
    (st1, [])

/-- Method `disconnect()`: stops the heartbeat timer; if a socket exists, closes
it with code 1000 and nulls the reference.  Nothing else is touched. -/
def FluxerGateway.disconnect (st : FluxerGateway) : FluxerGateway × List Effect :=
  let st1 := { st with heartbeatInterval := none }
  match st1.ws with
  | some _ => ({ st1 with ws := none }, [.closeWs 1000])
  | none => (st1, [])

/-- Fold `handlePayload` over a list of inbound payloads in arrival
order, keeping the state. -/
def FluxerGateway.runPayloads (st : FluxerGateway) (ps : List Payload) :
    FluxerGateway :=
  ps.foldl (fun s p => (s.handlePayload p).fst) st

/-- A dispatch (op 0) frame carrying sequence number `n` and no event type
of interest. -/
def mkDispatch (n : Nat) : Payload := { op := some 0, s := some n }

/-- A READY dispatch carrying a session id. -/
def readyPayload (sid : String) : Payload :=
  { op := some 0, t := some "READY", d := { session_id := some sid } }

/-- An opcode-7 (Reconnect request) frame. -/
def op7Payload : Payload := { op := some 7 }

/-- An opcode-9 (Invalid session) frame. -/
def op9Payload : Payload := { op := some 9 }

/-! ## Helper lemmas -/

/-- Processing one `mkDispatch n` frame only updates the sequence field,
following the JS truthiness of `payload.s`. -/
theorem handlePayload_mkDispatch (st : FluxerGateway) (n : Nat) :
    (st.handlePayload (mkDispatch n)).fst =
      if n = 0 then st else { st with sequence := n } := by
  unfold FluxerGateway.handlePayload mkDispatch
  by_cases h : n = 0 <;> simp [h]

/-- The truthiness-guarded sequence update, folded over a strictly
increasing list starting no lower than the accumulator, computes the
running maximum. -/
theorem trackFold_eq_maxFold :
    ∀ (l : List Nat) (acc : Nat), l.Chain' (· < ·) →
      (∀ a, l.head? = some a → acc ≤ a) →
      List.foldl (fun a n => if n = 0 then a else n) acc l =
        List.foldl Nat.max acc l := by
  intro l
  induction l with
  | nil => intro acc _ _; rfl
  | cons a l ih =>
    intro acc hc hh
    rcases List.chain'_cons'.mp hc with ⟨hfirst, hc'⟩
    have hacc : acc ≤ a := hh a rfl
    have hstep : (if a = 0 then acc else a) = Nat.max acc a := by
      by_cases h0 : a = 0
      · subst h0
        simp [Nat.le_zero.mp hacc]
      · simp [h0, Nat.max_eq_right hacc]
    simp only [List.foldl_cons, hstep]
    exact ih (Nat.max acc a) hc' (fun b hb => by
      have hab : a < b := hfirst b (by simp [hb])
      have : Nat.max acc a = a := Nat.max_eq_right hacc
      omega)

/-- Folding `handlePayload` over dispatch frames tracks exactly the
truthiness-guarded fold of their sequence numbers. -/
theorem runPayloads_mkDispatch_sequence :
    ∀ (ns : List Nat) (st : FluxerGateway),
      (st.runPayloads (ns.map mkDispatch)).sequence =
        List.foldl (fun a n => if n = 0 then a else n) st.sequence ns := by
  intro ns
  induction ns with
  | nil => intro st; rfl
  | cons n ns ih =>
    intro st
    simp only [List.map_cons, FluxerGateway.runPayloads, List.foldl_cons]
    rw [show ((st.handlePayload (mkDispatch n)).fst) =
          (if n = 0 then st else { st with sequence := n }) from
        handlePayload_mkDispatch st n]
    by_cases h : n = 0
    · simpa [h] using ih st
    · simpa [h] using ih { st with sequence := n }

/-! ## Claims -/

/-- C1 (counterexample): with the backoff counter at 3, processing a READY
dispatch leaves the counter at 3, not 0, so a successful transition into
Connected does not reset the attempt count. -/
theorem C1_counterexample :
    ((({ FluxerGateway.mk0 "tkn" with reconnectAttempts := 3 }).handlePayload
        (readyPayload "sess")).fst.reconnectAttempts = 3) ∧
    ¬ ((({ FluxerGateway.mk0 "tkn" with reconnectAttempts := 3 }).handlePayload
        (readyPayload "sess")).fst.reconnectAttempts = 0) := by
  constructor <;> decide

/-- C1 (amended): the backoff counter is never reset by a READY dispatch:
processing any opcode-0 payload leaves `reconnectAttempts` unchanged, so the
first retry after a success continues from the pre-success count rather
than restarting at attempt 1. -/
theorem C1_amended (st : FluxerGateway) (p : Payload) (h : p.op = some 0) :
    (st.handlePayload p).fst.reconnectAttempts = st.reconnectAttempts := by
  unfold FluxerGateway.handlePayload
  rcases p.s with _ | n <;> simp [h] <;> split_ifs <;> rfl

/-- C1 amended, witnessed at a concrete READY dispatch. -/
theorem C1_amended_witness :
    (((FluxerGateway.mk0 "tkn").handlePayload (readyPayload "sess")).fst.reconnectAttempts
      = (FluxerGateway.mk0 "tkn").reconnectAttempts) :=
  C1_amended (FluxerGateway.mk0 "tkn") (readyPayload "sess") (by rfl)

/-- C2 (counterexample): with the attempt counter at 6, already past the
maximum of 5, an opcode-7 frame still schedules a connect()
(after 1000 * 2^6 ms): the opcode-7 trigger never checks the maximum, so
exhaustion does not stop automatic reconnection. -/
theorem C2_counterexample :
    Effect.schedConnect 64000 ∈
      (({ FluxerGateway.mk0 "tkn" with reconnectAttempts := 6 }).handlePayload
          op7Payload).snd := by
  decide

/-- C2 (amended): only the transport-close path enforces the maximum: once
`reconnectAttempts` has reached it, `handleDisconnect` schedules nothing
further and emits only a log line, never the Error callback; but an
opcode-7 frame bypasses the check and schedules a connect() regardless of
the count, and an opcode-9 frame likewise schedules its fixed-delay
reconnect-policy timer regardless of the count, whose firing schedules a
connect() too — so exhaustion is neither final nor reported through
callbacks. -/
theorem C2_amended (st : FluxerGateway)
    (h : st.maxReconnectAttempts ≤ st.reconnectAttempts) :
    st.handleDisconnect =
      ({ st with heartbeatInterval := none },
       [Effect.logMsg "Max reconnect attempts reached"]) ∧
    Effect.schedConnect (st.reconnectDelay * 2 ^ st.reconnectAttempts) ∈
      (st.handlePayload op7Payload).snd ∧
    (st.handlePayload op9Payload).snd = [Effect.schedReconnect st.reconnectDelay] ∧
    Effect.schedConnect (st.reconnectDelay * 2 ^ st.reconnectAttempts) ∈
      ((st.handlePayload op9Payload).fst.reconnect).snd := by
  refine ⟨?_, ?_, ?_, ?_⟩
  · unfold FluxerGateway.handleDisconnect
    simp [Nat.not_lt.mpr h]
  · unfold FluxerGateway.handlePayload op7Payload FluxerGateway.reconnect
    simp
  · unfold FluxerGateway.handlePayload op9Payload
    simp
  · unfold FluxerGateway.handlePayload op9Payload FluxerGateway.reconnect
    simp

/-- C2 amended, witnessed at the concrete exhausted state (counter = 5 =
maximum). -/
theorem C2_amended_witness :
    (({ FluxerGateway.mk0 "tkn" with reconnectAttempts := 5 }).handleDisconnect =
      ({ FluxerGateway.mk0 "tkn" with reconnectAttempts := 5, heartbeatInterval := none },
       [Effect.logMsg "Max reconnect attempts reached"]) ∧
    Effect.schedConnect (1000 * 2 ^ 5) ∈
      (({ FluxerGateway.mk0 "tkn" with reconnectAttempts := 5 }).handlePayload
          op7Payload).snd ∧
    (({ FluxerGateway.mk0 "tkn" with reconnectAttempts := 5 }).handlePayload
        op9Payload).snd = [Effect.schedReconnect 1000] ∧
    Effect.schedConnect (1000 * 2 ^ 5) ∈
      ((({ FluxerGateway.mk0 "tkn" with reconnectAttempts := 5 }).handlePayload
          op9Payload).fst.reconnect).snd) :=
  C2_amended { FluxerGateway.mk0 "tkn" with reconnectAttempts := 5 } (by decide)

/-- C3 (counterexample): after three lifetime reconnect attempts and then a
successful READY dispatch, the next reconnect (k = 1 counting from the
success) is scheduled after 1000 * 2^3 = 8000 ms, not
baseDelay * 2^(1-1) = 1000 ms, because the counter is never reset. -/
theorem C3_counterexample :
    ((((({ FluxerGateway.mk0 "tkn" with reconnectAttempts := 3 }).handlePayload
        (readyPayload "s1")).fst).reconnect).snd = [Effect.schedConnect 8000]) ∧
    (8000 : Nat) ≠ 1000 * 2 ^ (1 - 1) := by
  constructor <;> decide

/-- C3 (amended): the delay of the n-th lifetime reconnect equals
`reconnectDelay * 2^(n-1)` where n is the total number of reconnect()
invocations since construction (the counter is never reset on success); no
jitter is added, and a rejection of the scheduled connect() is caught and
logged rather than re-thrown across the timer boundary. -/
theorem C3_amended (st : FluxerGateway) :
    st.reconnect.snd =
      [Effect.schedConnect (st.reconnectDelay * 2 ^ ((st.reconnectAttempts + 1) - 1))] ∧
    st.reconnect.fst.reconnectAttempts = st.reconnectAttempts + 1 ∧
    ∀ e : String, connectCatchHandler (Except.error e) = [Effect.logMsg e] := by
  refine ⟨rfl, rfl, fun e => rfl⟩

/-- C4 (counterexample): on a state whose socket is open (isConnected
true), connect() still dials the gateway endpoint again — a second dial is
observable, so the call is not an idempotent no-op. -/
theorem C4_counterexample :
    (({ FluxerGateway.mk0 "tkn" with ws := some WsReadyState.OPEN }).isConnected = true) ∧
    Effect.dial ∈
      ({ FluxerGateway.mk0 "tkn" with ws := some WsReadyState.OPEN }).connect.snd := by
  constructor <;> decide

/-- C4 (amended): connect() never checks the connection state: even when
`isConnected` is true it dials a fresh transport and replaces the socket
reference with the new connecting one. -/
theorem C4_amended (st : FluxerGateway) (h : st.isConnected = true) :
    Effect.dial ∈ st.connect.snd ∧
    st.connect.fst.ws = some WsReadyState.CONNECTING := by
  exact ⟨by simp [FluxerGateway.connect], rfl⟩

/-- C4 amended, witnessed at a concrete connected state. -/
theorem C4_amended_witness :
    Effect.dial ∈
      ({ FluxerGateway.mk0 "tkn" with ws := some WsReadyState.OPEN }).connect.snd ∧
    ({ FluxerGateway.mk0 "tkn" with ws := some WsReadyState.OPEN }).connect.fst.ws
      = some WsReadyState.CONNECTING :=
  C4_amended { FluxerGateway.mk0 "tkn" with ws := some WsReadyState.OPEN } (by decide)

/-- C5 (counterexample): disconnect() does not clear Session State: on a
connected state with session id "sess", `getSessionId` still returns
`some "sess"` (not the absent marker) afterwards, and the tracked sequence
survives too. -/
theorem C5_counterexample :
    ((({ FluxerGateway.mk0 "tkn" with
        ws := some WsReadyState.OPEN, sessionId := some "sess",
        sequence := 42, heartbeatInterval := some 41250 }).disconnect).fst.getSessionId
      = some "sess") ∧
    ((({ FluxerGateway.mk0 "tkn" with
        ws := some WsReadyState.OPEN, sessionId := some "sess",
        sequence := 42, heartbeatInterval := some 41250 }).disconnect).fst.sequence
      = 42) := by
  constructor <;> decide

/-- C5 (amended): disconnect() stops the heartbeat timer, closes the
transport with code 1000 exactly when a socket exists (and emits nothing —
in particular no error — when already disconnected), and nulls the socket;
but it does not clear Session State: sequence, session id and resume URL
all keep their values. -/
theorem C5_amended (st : FluxerGateway) :
    st.disconnect.fst.heartbeatInterval = none ∧
    st.disconnect.snd = (if st.ws.isSome then [Effect.closeWs 1000] else []) ∧
    st.disconnect.fst.ws = none ∧
    st.disconnect.fst.sequence = st.sequence ∧
    st.disconnect.fst.sessionId = st.sessionId ∧
    st.disconnect.fst.resumeUrl = st.resumeUrl := by
  unfold FluxerGateway.disconnect
  rcases h : st.ws with _ | w <;> simp [h]

/-- C6 (counterexample): after an explicit disconnect() on a freshly
connected state, the transport close event still runs the auto-reconnect
path and schedules a new connect() after 1000 ms — the close handler has
no notion of a client-initiated disconnect. -/
theorem C6_counterexample :
    Effect.schedConnect 1000 ∈
      ((({ FluxerGateway.mk0 "tkn" with
          ws := some WsReadyState.OPEN,
          heartbeatInterval := some 41250 }).disconnect).fst.onClose).snd := by
  decide

/-- C6 (amended): disconnect() does synchronously cancel the heartbeat
timer, but explicit disconnect does not take precedence over
auto-reconnect: when the attempt counter is below the maximum, the close
event that follows the client-initiated close fires the Disconnect
callback and schedules a fresh connect() anyway. -/
theorem C6_amended (st : FluxerGateway)
    (h : st.reconnectAttempts < st.maxReconnectAttempts) :
    st.disconnect.fst.heartbeatInterval = none ∧
    (st.disconnect.fst.onClose).snd =
      [Effect.cbDisconnect,
       Effect.schedConnect (st.reconnectDelay * 2 ^ st.reconnectAttempts)] := by
  unfold FluxerGateway.disconnect FluxerGateway.onClose
    FluxerGateway.handleDisconnect FluxerGateway.reconnect
  rcases hw : st.ws with _ | w <;> simp [hw, h]

/-- C6 amended, witnessed at the concrete connected state with attempt
counter 0. -/
theorem C6_amended_witness :
    (({ FluxerGateway.mk0 "tkn" with
        ws := some WsReadyState.OPEN,
        heartbeatInterval := some 41250 }).disconnect.fst.heartbeatInterval = none) ∧
    ((({ FluxerGateway.mk0 "tkn" with
        ws := some WsReadyState.OPEN,
        heartbeatInterval := some 41250 }).disconnect.fst.onClose).snd =
      [Effect.cbDisconnect, Effect.schedConnect (1000 * 2 ^ 0)]) :=
  C6_amended { FluxerGateway.mk0 "tkn" with
    ws := some WsReadyState.OPEN, heartbeatInterval := some 41250 } (by decide)

/-- C7 (counterexample): on a fresh state, opcode 9 schedules the
reconnect-policy call after the fixed 1000 ms, and when that timer fires
the policy schedules connect() after a further 1000 ms of exponential
backoff — the total 2000 ms before connect() is not the short fixed delay
alone. -/
theorem C7_counterexample :
    (((FluxerGateway.mk0 "tkn").handlePayload op9Payload).snd
      = [Effect.schedReconnect 1000]) ∧
    ((((FluxerGateway.mk0 "tkn").handlePayload op9Payload).fst.reconnect).snd
      = [Effect.schedConnect 1000]) ∧
    (1000 + 1000 : Nat) ≠ 1000 := by
  refine ⟨by decide, by decide, by decide⟩

/-- C7 (amended): opcode 9 schedules exactly one reconnect-policy
invocation, after the short fixed delay `reconnectDelay`; when that timer
fires, the policy adds its exponential backoff delay before the actual
connect(), so the total delay is the fixed delay plus
`reconnectDelay * 2^attempt`, not the fixed delay instead of the backoff. -/
theorem C7_amended (st : FluxerGateway) (p : Payload) (h : p.op = some 9) :
    (st.handlePayload p).snd = [Effect.schedReconnect st.reconnectDelay] ∧
    (((st.handlePayload p).fst.reconnect).snd =
      [Effect.schedConnect (st.reconnectDelay * 2 ^ st.reconnectAttempts)]) := by
  unfold FluxerGateway.handlePayload FluxerGateway.reconnect
  rcases p.s with _ | n <;> simp [h] <;> split_ifs <;> exact ⟨rfl, rfl⟩

/-- C7 amended, witnessed at a concrete opcode-9 frame on a fresh state. -/
theorem C7_amended_witness :
    (((FluxerGateway.mk0 "tkn").handlePayload op9Payload).snd
      = [Effect.schedReconnect (FluxerGateway.mk0 "tkn").reconnectDelay]) ∧
    ((((FluxerGateway.mk0 "tkn").handlePayload op9Payload).fst.reconnect).snd
      = [Effect.schedConnect ((FluxerGateway.mk0 "tkn").reconnectDelay * 2 ^ 0)]) :=
  C7_amended (FluxerGateway.mk0 "tkn") op9Payload (by rfl)

/-- C8: for every strictly increasing list of dispatch sequence numbers
(first value 0 allowed), processing the dispatch frames in arrival order
leaves the tracked sequence number equal to the maximum s seen. -/
theorem C8_theorem (ns : List Nat) (hs : ns.Chain' (· < ·)) :
    ((FluxerGateway.mk0 "tkn").runPayloads (ns.map mkDispatch)).sequence =
      ns.foldl Nat.max 0 := by
  rw [runPayloads_mkDispatch_sequence]
  exact trackFold_eq_maxFold ns 0 hs (fun a _ => Nat.zero_le a)

/-- C8, witnessed on the concrete increasing list [0, 2, 5] whose first s
value is 0: the tracked sequence ends at 5, the maximum. -/
theorem C8_theorem_witness :
    (([0, 2, 5] : List Nat).Chain' (· < ·)) ∧
    ((FluxerGateway.mk0 "tkn").runPayloads (([0, 2, 5] : List Nat).map mkDispatch)).sequence
      = ([0, 2, 5] : List Nat).foldl Nat.max 0 :=
  ⟨by norm_num [List.chain'_cons], C8_theorem [0, 2, 5] (by norm_num [List.chain'_cons])⟩

/-- C9 (counterexample): on a fresh connection with no sequence number
observed yet, a heartbeat tick sends `d` as the number 0 (the field
initializer), not the null marker the spec requires. -/
theorem C9_counterexample :
    (({ FluxerGateway.mk0 "tkn" with ws := some WsReadyState.OPEN }).heartbeatTick
      = [Effect.sendHeartbeat (HeartbeatD.num 0)]) ∧
    HeartbeatD.num 0 ≠ HeartbeatD.null := by
  constructor <;> decide

/-- C9 (amended): every heartbeat tick on an open transport sends exactly
one `{op: 1, d: sequence}` frame whose `d` is always the numeric current
sequence — the number 0, never a null marker, when nothing has been
observed yet. -/
theorem C9_amended (st : FluxerGateway) (h : st.ws = some WsReadyState.OPEN) :
    st.heartbeatTick = [Effect.sendHeartbeat (HeartbeatD.num st.sequence)] ∧
    ∀ d, Effect.sendHeartbeat d ∈ st.heartbeatTick → d = HeartbeatD.num st.sequence := by
  unfold FluxerGateway.heartbeatTick
  simp [h]

/-- C9 amended, witnessed at the concrete fresh open state (sequence 0). -/
theorem C9_amended_witness :
    (({ FluxerGateway.mk0 "tkn" with ws := some WsReadyState.OPEN }).heartbeatTick
      = [Effect.sendHeartbeat (HeartbeatD.num 0)]) ∧
    (∀ d, Effect.sendHeartbeat d ∈
        ({ FluxerGateway.mk0 "tkn" with ws := some WsReadyState.OPEN }).heartbeatTick →
      d = HeartbeatD.num 0) :=
  C9_amended { FluxerGateway.mk0 "tkn" with ws := some WsReadyState.OPEN } (by decide)

/-- C10: handlePayload updates the tracked sequence from a truthy `s`
regardless of opcode, and leaves it unchanged when `s` is 0, null or
absent. -/
theorem C10_theorem (st : FluxerGateway) (p : Payload) :
    (st.handlePayload p).fst.sequence =
      (match p.s with
       | some n => if n = 0 then st.sequence else n
       | none => st.sequence) := by
  unfold FluxerGateway.handlePayload
  rcases p.s with _ | n <;>
    simp [FluxerGateway.startHeartbeat, FluxerGateway.reconnect] <;>
    split_ifs <;> rfl
